import Mathlib

/-!
Verification of the USP reco engine adapter
(`source/core/sr/usp_reco_engine_adapter.cpp`).

The development shallowly embeds the adapter's buffered audio writer
(`UspWrite_Buffered` / `UspWrite_Actual` / `UspWrite_Flush` / `UspWrite`),
the header synthesizer (`UspWriteFormat`), `SetFormat` / `ProcessAudio`,
the endpoint/auth resolver (`GetUspEndpointType`, `GetUspRecoMode`,
`GetUspModelId`, `GetUspCustomEndpoint`) and the message dispatch
callbacks, and proves the specified properties about them.

Bytes are modelled as `Nat`, byte strings as `List Nat`, and the blocks
handed to the transport send operation (`::UspWriteAudio`) as a
`List (List Nat)` in call order.
-/

/-- State of the lazily allocated accumulation buffer (`m_buffer`).
`bytesInBuffer` is `m_bytesInBuffer` (the allocated size); `filled` is the
already-written portion, so the write cursor `m_ptrIntoBuffer` sits at
offset `filled.length` and `m_bytesLeftInBuffer = bytesInBuffer - filled.length`. -/
structure BufState where
  bytesInBuffer : Nat
  filled : List Nat
deriving DecidableEq

/-- The buffered-writer fields of `CSpxUspRecoEngineAdapter`:
`m_servicePreferedBufferSize` and `m_buffer` (`none` models `nullptr`;
the constructor and the flush branch keep `m_bytesInBuffer`,
`m_ptrIntoBuffer`, `m_bytesLeftInBuffer` zeroed exactly when
`m_buffer == nullptr`, so an `Option BufState` captures them all). -/
structure WriterState where
  servicePreferedBufferSize : Nat
  buffer : Option BufState
deriving DecidableEq

/-- The flush-or-continue check at the top of the `for(;;)` loop of
`UspWrite_Buffered`: when `flushBuffer || (m_bytesInBuffer > 0 &&
m_bytesLeftInBuffer == 0)` holds with `flushBuffer = false`, the filled
portion (`bytesToFlush = m_bytesInBuffer - m_bytesLeftInBuffer` bytes,
i.e. `filled`) is handed to `UspWrite_Actual` and the cursor is reset. -/
def flushStep (size : Nat) (filled : List Nat) : List (List Nat) × List Nat :=
  if 0 < size ∧ size - filled.length = 0 then ([filled], []) else ([], filled)

/-- The non-flush `for(;;)` loop of `UspWrite_Buffered`, for a call with
`bytesToWrite > 0` (so `flushBuffer = false` and the mid-loop
deallocation branch never runs).  `buffer` is the call's source pointer
and `bytesToWrite` the remaining-byte counter.  Each iteration performs
the flush-check, breaks once `bytesToWrite == 0`, and otherwise copies
`bytesThisLoop = min bytesToWrite m_bytesLeftInBuffer` bytes with
`memcpy(m_ptrIntoBuffer, buffer, bytesThisLoop)`.  The source pointer
`buffer` is never advanced by the loop, so every iteration reads the
first `bytesThisLoop` bytes of the call's input — `buffer.take
bytesThisLoop`: when a single call spans a buffer boundary, the second
copy re-reads the input's head bytes instead of continuing where the
first copy stopped.  The counter decreases by at least one per iteration
whenever `0 < size` (the only way the adapter reaches this code:
`UspWrite` routes to the buffered path only when
`m_servicePreferedBufferSize != 0`), so fuel `bytesToWrite + 1` makes the
recursion total; fuel exhaustion can only occur in states unreachable
from the adapter (where the C++ loop would spin forever copying zero
bytes). -/
def bufLoopGo (size : Nat) (buffer : List Nat) :
    Nat → Nat → List Nat → List (List Nat) × List Nat
  | 0, _, filled => ([], filled)
  | fuel + 1, bytesToWrite, filled =>
    let s := flushStep size filled
    if bytesToWrite = 0 then s
    else
      let bytesThisLoop := min bytesToWrite (size - s.2.length)
      let r := bufLoopGo size buffer fuel (bytesToWrite - bytesThisLoop)
        (s.2 ++ buffer.take bytesThisLoop)
      (s.1 ++ r.1, r.2)

/-- `CSpxUspRecoEngineAdapter::UspWrite_Buffered`.  Returns the blocks
handed to `UspWrite_Actual` (in order) and the updated writer state.
`input = []` is `bytesToWrite == 0`, which sets `flushBuffer`: the loop
then transmits the filled portion, resets, releases the buffer
(`m_buffer = nullptr`, counters zeroed) and breaks after one iteration.
Otherwise the buffer is lazily allocated to `m_servicePreferedBufferSize`
when `m_buffer == nullptr` and the copy loop runs. -/
def UspWrite_Buffered (st : WriterState) (input : List Nat) :
    List (List Nat) × WriterState :=
  let size := match st.buffer with
    | none => st.servicePreferedBufferSize
    | some b => b.bytesInBuffer
  let filled := match st.buffer with
    | none => []
    | some b => b.filled
  match input with
  | [] => ([filled], ⟨st.servicePreferedBufferSize, none⟩)
  | _ :: _ =>
    let r := bufLoopGo size input (input.length + 1) input.length filled
    (r.1, ⟨st.servicePreferedBufferSize, some ⟨size, r.2⟩⟩)

/-- `CSpxUspRecoEngineAdapter::UspWrite_Flush`: a zero-byte buffered write. -/
def UspWrite_Flush (st : WriterState) : List (List Nat) × WriterState :=
  UspWrite_Buffered st []

/-- The bytes currently retained in the accumulation buffer. -/
def retained (st : WriterState) : List Nat :=
  match st.buffer with
  | none => []
  | some b => b.filled

/-- The size the copy loop works against: the allocated buffer's size, or
`m_servicePreferedBufferSize` if the buffer is about to be allocated. -/
def activeSize (st : WriterState) : Nat :=
  match st.buffer with
  | none => st.servicePreferedBufferSize
  | some b => b.bytesInBuffer

/-- A writer that has never buffered anything (fresh adapter state after
the capacity has been configured). -/
def freshWriter (cap : Nat) : WriterState := ⟨cap, none⟩

/-- A sequence of `UspWrite_Buffered` calls, threading the writer state
and concatenating the blocks handed to the transport. -/
def writeMany (st : WriterState) : List (List Nat) → List (List Nat) × WriterState
  | [] => ([], st)
  | c :: cs =>
    let r := UspWrite_Buffered st c
    let rest := writeMany r.2 cs
    (r.1 ++ rest.1, rest.2)

/-- A sequence of buffered writes followed by a final flush ("the bytes
ultimately transmitted"). -/
def writeAll (st : WriterState) (chunks : List (List Nat)) :
    List (List Nat) × WriterState :=
  let r := writeMany st chunks
  let f := UspWrite_Flush r.2
  (r.1 ++ f.1, f.2)

theorem bufLoopGo_succ (size : Nat) (buffer : List Nat) (fuel bytesToWrite : Nat)
    (filled : List Nat) :
    bufLoopGo size buffer (fuel + 1) bytesToWrite filled =
      if bytesToWrite = 0 then flushStep size filled
      else
        ((flushStep size filled).1 ++
            (bufLoopGo size buffer fuel
              (bytesToWrite - min bytesToWrite (size - (flushStep size filled).2.length))
              ((flushStep size filled).2 ++
                buffer.take (min bytesToWrite (size - (flushStep size filled).2.length)))).1,
          (bufLoopGo size buffer fuel
            (bytesToWrite - min bytesToWrite (size - (flushStep size filled).2.length))
            ((flushStep size filled).2 ++
              buffer.take (min bytesToWrite (size - (flushStep size filled).2.length)))).2) := by
  cases bytesToWrite with
  | zero => rfl
  | succ n => rfl

theorem flushStep_empty (size : Nat) (hs : 0 < size) :
    flushStep size [] = ([], []) := by
  unfold flushStep
  rw [if_neg]
  simp only [List.length_nil]
  omega

theorem flushStep_full (size : Nat) (filled : List Nat) (hs : 0 < size)
    (hf : filled.length = size) : flushStep size filled = ([filled], []) := by
  unfold flushStep
  rw [if_pos]
  omega

theorem flushStep_partial (size : Nat) (filled : List Nat)
    (hf : filled.length < size) : flushStep size filled = ([], filled) := by
  unfold flushStep
  rw [if_neg]
  omega

theorem bufLoopGo_btw0 (size : Nat) (buffer : List Nat) (fuel : Nat)
    (filled : List Nat) (hf : filled.length < size) :
    bufLoopGo size buffer fuel 0 filled = ([], filled) := by
  cases fuel with
  | zero => rfl
  | succ fuel => rw [bufLoopGo_succ, if_pos rfl, flushStep_partial size filled hf]

theorem bufLoopGo_btw0_full (size : Nat) (buffer : List Nat) (fuel : Nat)
    (filled : List Nat) (hs : 0 < size) (hf : filled.length = size) :
    bufLoopGo size buffer (fuel + 1) 0 filled = ([filled], []) := by
  rw [bufLoopGo_succ, if_pos rfl, flushStep_full size filled hs hf]

example : bufLoopGo 3 [1, 2, 3, 4] 5 4 [] = ([[1, 2, 3]], [1]) := by decide
example : bufLoopGo 2 [1, 2, 3, 4] 5 4 [] = ([[1, 2], [1, 2]], []) := by decide
example : UspWrite_Buffered (freshWriter 3) [1, 2, 3, 4] =
    ([[1, 2, 3]], ⟨3, some ⟨3, [1]⟩⟩) := by decide
example : UspWrite_Buffered ⟨3, some ⟨3, [4]⟩⟩ [] = ([[4]], ⟨3, none⟩) := by decide
example : writeAll (freshWriter 2) [[1], [2, 3], [], [4]] =
    ([[1, 2], [2], [4]], ⟨2, none⟩) := by decide

/-- The result codes relevant to `UspWrite_Actual`: `SPX_NOERROR`, the
transport's `USP_WRITE_AUDIO_ERROR` (per the comment in the source,
"::UspWriteAudio currently returns USP_WRITE_AUDIO_ERROR on zero bytes" —
it is the failure the transport reports for a zero-length send), and any
other failing HRESULT. -/
inductive UspHr where
  | noerror
  | uspWriteAudioError
  | otherFailure
deriving DecidableEq

/-- Whether an HRESULT is a failure (`SPX_IFFAILED_THROW_HR` throws on it). -/
def hrFailed : UspHr → Bool
  | .noerror => false
  | .uspWriteAudioError => true
  | .otherFailure => true

/-- The error handling of `CSpxUspRecoEngineAdapter::UspWrite_Actual`:
`hr = ::UspWriteAudio(...)`, then
`hr = (byteToWrite == 0 && hr == USP_WRITE_AUDIO_ERROR) ? SPX_NOERROR : hr`,
then `SPX_IFFAILED_THROW_HR(hr)`.  The transport's result is a parameter;
`.ok` models a normal return and `.error` models the thrown failure. -/
def UspWrite_Actual_hr (hr : UspHr) (byteToWrite : Nat) : Except UspHr Unit :=
  let hr2 := if byteToWrite = 0 ∧ hr = UspHr.uspWriteAudioError then UspHr.noerror else hr
  if hrFailed hr2 then Except.error hr2 else Except.ok ()

/-- The adapter fields that route `UspWrite`:
`m_fUseBufferedImplementation` and the buffered-writer state.

Modelled from the spec: `m_fUseBufferedImplementation` is declared in the
class header, which is not part of the sources; the spec describes it as
the boolean selecting the buffered write strategy, chosen once at
configuration time, with the spec's data flow sending audio through the
Buffered Audio Writer (so the adapter's default is modelled as `true`). -/
structure AdapterState where
  fUseBufferedImplementation : Bool
  writer : WriterState
deriving DecidableEq

/-- `CSpxUspRecoEngineAdapter::UspWrite`: picks `UspWrite_Actual` when
`!m_fUseBufferedImplementation || m_servicePreferedBufferSize == 0`, else
`UspWrite_Buffered`.  Returns the blocks handed to the transport send
operation and the updated adapter state (the direct path hands the input
over verbatim as a single block and leaves the writer state untouched). -/
def UspWrite (st : AdapterState) (input : List Nat) :
    List (List Nat) × AdapterState :=
  if !st.fUseBufferedImplementation || st.writer.servicePreferedBufferSize = 0 then
    ([input], st)
  else
    let r := UspWrite_Buffered st.writer input
    (r.1, ⟨st.fUseBufferedImplementation, r.2⟩)

/-- `CSpxUspRecoEngineAdapter::ProcessAudio`: forwards to `UspWrite`. -/
def ProcessAudio (st : AdapterState) (data : List Nat) :
    List (List Nat) × AdapterState :=
  UspWrite st data

/-- `WAVEFORMATEX`: the audio format descriptor.  The trailing
`extraBytes` are the `cbSize` bytes that follow the fixed fields in
memory.  The struct is byte-packed, so `sizeof(WAVEFORMAT) = 14` and the
fixed `WAVEFORMATEX` fields occupy 18 bytes. -/
structure WAVEFORMATEX where
  wFormatTag : Nat
  nChannels : Nat
  nSamplesPerSec : Nat
  nAvgBytesPerSec : Nat
  nBlockAlign : Nat
  wBitsPerSample : Nat
  cbSize : Nat
  extraBytes : List Nat
deriving DecidableEq

/-- Two-byte little-endian encoding of a 16-bit field. -/
def le16 (n : Nat) : List Nat := [n % 256, n / 256 % 256]

/-- Four-byte little-endian encoding of a 32-bit value, as `memcpy` of a
`uint32_t` produces on the little-endian targets the adapter runs on. -/
def le32 (n : Nat) : List Nat :=
  [n % 256, n / 256 % 256, n / 65536 % 256, n / 16777216 % 256]

/-- ASCII bytes of a tag string (`memcpy` from a `char` array). -/
def asciiBytes (s : String) : List Nat := s.toList.map Char.toNat

/-- In-memory byte image of a packed `WAVEFORMATEX` followed by its extra
bytes. -/
def waveformatexBytes (f : WAVEFORMATEX) : List Nat :=
  le16 f.wFormatTag ++ le16 f.nChannels ++ le32 f.nSamplesPerSec ++
    le32 f.nAvgBytesPerSec ++ le16 f.nBlockAlign ++ le16 f.wBitsPerSample ++
    le16 f.cbSize ++ f.extraBytes

/-- `FormatBufferWriteChars`: copy `cch` characters into the buffer. -/
def FormatBufferWriteChars (buffer : List Nat) (psz : String) (cch : Nat) :
    List Nat :=
  buffer ++ (asciiBytes psz).take cch

/-- `FormatBufferWriteNumber`: copy a `uint32_t` little-endian. -/
def FormatBufferWriteNumber (buffer : List Nat) (number : Nat) : List Nat :=
  buffer ++ le32 number

/-- `FormatBufferWriteBytes`: copy `bytes` bytes from the source. -/
def FormatBufferWriteBytes (buffer source : List Nat) (bytes : Nat) : List Nat :=
  buffer ++ source.take bytes

/-- `cbFormatChunk = sizeof(WAVEFORMAT) + pformat->cbSize`, the byte
length of the serialized format descriptor. -/
def cbFormatChunk (f : WAVEFORMATEX) : Nat := 14 + f.cbSize

/-- The serialized format descriptor: the first `cbFormatChunk` bytes of
the `WAVEFORMATEX` memory image (`FormatBufferWriteBytes(ptr,
(uint8_t*)pformat, cbFormatChunk)`). -/
def serializedFormat (f : WAVEFORMATEX) : List Nat :=
  (waveformatexBytes f).take (cbFormatChunk f)

/-- `cbHeader`, computed before writing: `cbTag + cbChunkSize +
cbChunkType + cbChunkType + cbChunkSize + cbFormatChunk + cbChunkType +
cbChunkSize` with all of `cbTag`, `cbChunkType`, `cbChunkSize` equal 4. -/
def cbHeader (f : WAVEFORMATEX) : Nat :=
  4 + 4 + 4 + 4 + 4 + cbFormatChunk f + 4 + 4

/-- The header bytes built by `CSpxUspRecoEngineAdapter::UspWriteFormat`
(`cbRiffChunk` and `cbDataChunk` are the zero placeholders). -/
def UspWriteFormatHeader (f : WAVEFORMATEX) : List Nat :=
  let cbRiffChunk := 0
  let cbDataChunk := 0
  let b := FormatBufferWriteChars [] "RIFF" 4
  let b := FormatBufferWriteNumber b cbRiffChunk
  let b := FormatBufferWriteChars b "WAVE" 4
  let b := FormatBufferWriteChars b "fmt " 4
  let b := FormatBufferWriteNumber b (cbFormatChunk f)
  let b := FormatBufferWriteBytes b (waveformatexBytes f) (cbFormatChunk f)
  let b := FormatBufferWriteChars b "data" 4
  FormatBufferWriteNumber b cbDataChunk

/-- Modelled from the spec: `m_servicePreferedMilliseconds` is declared
in the class header, which is not part of the sources; the spec fixes the
buffering target at 100 milliseconds. -/
def servicePreferedMilliseconds : Nat := 100

/-- The capacity computed by `SetFormat`:
`(size_t)pformat->nSamplesPerSec * pformat->nBlockAlign *
m_servicePreferedMilliseconds / 1000`. -/
def computedBufferSize (f : WAVEFORMATEX) : Nat :=
  f.nSamplesPerSec * f.nBlockAlign * servicePreferedMilliseconds / 1000

/-- `CSpxUspRecoEngineAdapter::SetFormat`.  A non-null format first runs
`UspWriteFormat` — whose final step hands the header bytes to `UspWrite`,
dispatching on the *current* `m_servicePreferedBufferSize` — and only
then updates `m_servicePreferedBufferSize`.  A null format flushes
(`UspWrite_Flush` calls `UspWrite_Buffered(handle, nullptr, 0)`
directly). -/
def SetFormat (st : AdapterState) : Option WAVEFORMATEX →
    List (List Nat) × AdapterState
  | some f =>
    let r := UspWrite st (UspWriteFormatHeader f)
    (r.1, ⟨r.2.fUseBufferedImplementation,
      ⟨computedBufferSize f, r.2.writer.buffer⟩⟩)
  | none =>
    let r := UspWrite_Flush st.writer
    (r.1, ⟨st.fUseBufferedImplementation, r.2⟩)

/-- A freshly constructed adapter: `m_servicePreferedBufferSize = 0`, no
buffer allocated, buffered strategy configured (see `AdapterState`). -/
def freshAdapter : AdapterState := ⟨true, ⟨0, none⟩⟩

/-- The 16 kHz, block-align 2 PCM descriptor of the specified scenario. -/
def fmt16k : WAVEFORMATEX :=
  ⟨1, 1, 16000, 32000, 2, 16, 0, []⟩

example : computedBufferSize fmt16k = 3200 := by decide
example : (UspWriteFormatHeader fmt16k).length = 42 := by decide
example : UspWriteFormatHeader fmt16k =
    [82, 73, 70, 70, 0, 0, 0, 0, 87, 65, 86, 69, 102, 109, 116, 32,
     14, 0, 0, 0, 1, 0, 1, 0, 128, 62, 0, 0, 0, 125, 0, 0, 2, 0,
     100, 97, 116, 97, 0, 0, 0, 0] := by decide

/-- Case-insensitive string equality, as `PAL::wcsicmp(a, b) == 0`. -/
def strieq (a b : String) : Bool :=
  a.toList.map Char.toLower == b.toList.map Char.toLower

/-- `UspEndpointType` (`USP_ENDPOINT_*`): `bingSpeech` is the default
speech endpoint, `cris` the Custom Recognition Intelligent Service
(intelligent custom model), `cdsdk` the CORTANA legacy-agent endpoint,
`unknown` the by-URL custom endpoint. -/
inductive UspEndpointType where
  | bingSpeech
  | cris
  | cdsdk
  | unknown
deriving DecidableEq

/-- `UspRecognitionMode` (`USP_RECO_MODE_*`). -/
inductive UspRecognitionMode where
  | interactive
  | conversation
  | dictation
  | unknownMode
deriving DecidableEq

/-- A property store: `ISpxNamedProperties::GetStringValue` keyed by exact
(case-sensitive) name, empty string when unset. -/
abbrev PropertyStore := String → String

/-- `CSpxUspRecoEngineAdapter::GetUspEndpointType`.  Reads
`SPEECH-Endpoint` and `CUSTOMSPEECH-modelId` (the `SPEECH-SubscriptionKey`
read in the source is unused by the branch) and picks the first match:
non-empty model id → CRIS; endpoint case-insensitively `CORTANA` → CDSDK;
other non-empty endpoint → unknown (custom URL); otherwise Bing Speech. -/
def GetUspEndpointType (properties : PropertyStore) : UspEndpointType :=
  let endpoint := properties "SPEECH-Endpoint"
  let customSpeechModelId := properties "CUSTOMSPEECH-modelId"
  if customSpeechModelId ≠ "" then UspEndpointType.cris
  else if strieq endpoint "CORTANA" then UspEndpointType.cdsdk
  else if endpoint ≠ "" then UspEndpointType.unknown
  else UspEndpointType.bingSpeech

/-- `CSpxUspRecoEngineAdapter::GetUspCustomEndpoint`: the
`SPEECH-Endpoint` property, verbatim. -/
def GetUspCustomEndpoint (properties : PropertyStore) : String :=
  properties "SPEECH-Endpoint"

/-- `CSpxUspRecoEngineAdapter::GetUspRecoMode`: `SPEECH-RecoMode`, empty
or `INTERACTIVE` (case-insensitive) → interactive, `CONVERSATION` →
conversation, `DICTATION` → dictation, anything else → unknown. -/
def GetUspRecoMode (properties : PropertyStore) : UspRecognitionMode :=
  let value := properties "SPEECH-RecoMode"
  if value = "" || strieq value "INTERACTIVE" then UspRecognitionMode.interactive
  else if strieq value "CONVERSATION" then UspRecognitionMode.conversation
  else if strieq value "DICTATION" then UspRecognitionMode.dictation
  else UspRecognitionMode.unknownMode

/-- `CSpxUspRecoEngineAdapter::GetUspModelId`: the `CUSTOMSPEECH-ModelId`
property (note the capital `M`, unlike the key read by
`GetUspEndpointType`). -/
def GetUspModelId (properties : PropertyStore) : String :=
  properties "CUSTOMSPEECH-ModelId"

/-- Inbound protocol messages (`UspMsg*`), with the fields the handlers
use. -/
inductive UspMsg where
  | speechStartDetected (offset : Nat)
  | speechEndDetected (offset : Nat)
  | speechHypothesis (offset : Nat) (text : String)
  | speechFragment (offset : Nat) (text : String)
  | speechPhrase (offset : Nat) (displayText : String)
  | turnStart (contextServiceTag : String)
  | turnEnd
  | uspError (errorCode : Nat) (description : String)
deriving DecidableEq

/-- Events delivered to the consumer's event sink (the `GetSite()` calls
made by the `UspOn*` handlers). -/
inductive RecognitionEvent where
  | speechStarted (offset : Nat)
  | speechEnded (offset : Nat)
  | intermediateResult (offset : Nat) (text : String)
  | finalResult (offset : Nat) (text : String)
  | additionalInfo (offset : Nat) (payload : String)
  | streamDone
  | errorEvent (errorCode : Nat) (description : String)
deriving DecidableEq

/-- The dispatch routing of `InitCallbacks` / the `UspOn*` handlers: each
inbound message is routed synchronously to exactly one sink call.
`turnStart` → `AdditionalMessage(this, 0, payload)`; `turnEnd` →
`DoneProcessingAudio` (the terminal StreamDone); hypothesis and fragment
both build an intermediate result. -/
def dispatchMessage : UspMsg → RecognitionEvent
  | .speechStartDetected offset => .speechStarted offset
  | .speechEndDetected offset => .speechEnded offset
  | .speechHypothesis offset text => .intermediateResult offset text
  | .speechFragment offset text => .intermediateResult offset text
  | .speechPhrase offset displayText => .finalResult offset displayText
  | .turnStart tag => .additionalInfo 0 tag
  | .turnEnd => .streamDone
  | .uspError code desc => .errorEvent code desc

/-- One item of a session's inbound history: a delivered message, or the
adapter's termination (`Term`, which runs `UspShutdown`/`UspClose`). -/
inductive SessionItem where
  | msg (m : UspMsg)
  | terminate
deriving DecidableEq

/-- The events reaching the consumer's sink for a session history.
Message dispatch is the code's `UspOn*` routing (`dispatchMessage`).
Modelled from the spec: `::UspClose` (called by `Term` via `UspShutdown`)
is not part of the sources; per the spec's transport contract, messages
arriving after terminate are dropped and never dispatched, so items after
`terminate` contribute no events. -/
def runSession : List SessionItem → List RecognitionEvent
  | [] => []
  | .terminate :: _ => []
  | .msg m :: rest => dispatchMessage m :: runSession rest

example : runSession [.msg .turnEnd, .msg (.speechStartDetected 5)] =
    [.streamDone, .speechStarted 5] := by decide
example : runSession [.msg .turnEnd, .terminate, .msg (.speechStartDetected 5)] =
    [.streamDone] := by decide

theorem UspWrite_Flush_eq (st : WriterState) :
    UspWrite_Flush st = ([retained st], ⟨st.servicePreferedBufferSize, none⟩) := by
  unfold UspWrite_Flush UspWrite_Buffered retained
  match st with
  | ⟨cap, none⟩ => rfl
  | ⟨cap, some b⟩ => rfl

theorem UspWrite_Buffered_cons (st : WriterState) (a : Nat) (t : List Nat) :
    UspWrite_Buffered st (a :: t) =
      ((bufLoopGo (activeSize st) (a :: t) ((a :: t).length + 1) (a :: t).length
          (retained st)).1,
        ⟨st.servicePreferedBufferSize,
          some ⟨activeSize st,
            (bufLoopGo (activeSize st) (a :: t) ((a :: t).length + 1) (a :: t).length
              (retained st)).2⟩⟩) := by
  unfold UspWrite_Buffered activeSize retained
  match st with
  | ⟨cap, none⟩ => rfl
  | ⟨cap, some b⟩ => rfl

theorem bufLoopGo_exact (size : Nat) (input : List Nat) (hs : 0 < size)
    (hlen : input.length = size) :
    bufLoopGo size input (input.length + 1) input.length [] = ([input], []) := by
  cases input with
  | nil => simp at hlen; omega
  | cons a t =>
    rw [bufLoopGo_succ, if_neg (by simp : ¬(a :: t).length = 0),
      flushStep_empty size hs]
    simp only [List.length_nil, Nat.sub_zero, List.nil_append]
    have hmin : min (a :: t).length size = (a :: t).length := by omega
    rw [hmin, List.take_length, Nat.sub_self]
    have hfuel : (a :: t).length = t.length + 1 := rfl
    rw [hfuel, bufLoopGo_btw0_full size (a :: t) t.length (a :: t) hs hlen]

/-- A single fresh-buffer write that spans one buffer boundary
(`cap < input.length < 2 * cap`): the first copy fills the buffer with
`input.take cap`, the full buffer is flushed, and the second copy —
reading from the never-advanced source pointer — fills the buffer with
`input.take (input.length - cap)`, a duplicate of the input's head,
rather than with the input's tail. -/
theorem UspWrite_Buffered_fresh_overflow (cap : Nat) (input : List Nat)
    (h1 : cap < input.length) (h2 : input.length < 2 * cap) :
    UspWrite_Buffered (freshWriter cap) input =
      ([input.take cap],
        ⟨cap, some ⟨cap, input.take (input.length - cap)⟩⟩) := by
  have hc : 0 < cap := by omega
  cases input with
  | nil => simp at h1
  | cons a t =>
    rw [UspWrite_Buffered_cons]
    have hsize : activeSize (freshWriter cap) = cap := rfl
    have hret : retained (freshWriter cap) = [] := rfl
    rw [hsize, hret]
    simp only [List.length_cons] at h1 h2 ⊢
    rw [bufLoopGo_succ, if_neg (by omega : ¬t.length + 1 = 0),
      flushStep_empty cap hc]
    simp only [List.length_nil, Nat.sub_zero, List.nil_append]
    have hmin : min (t.length + 1) cap = cap := by omega
    rw [hmin]
    have htake : ((a :: t).take cap).length = cap := by
      rw [List.length_take]
      simp only [List.length_cons]
      omega
    rw [bufLoopGo_succ, if_neg (by omega : ¬t.length + 1 - cap = 0),
      flushStep_full cap ((a :: t).take cap) hc htake]
    simp only [List.length_nil, Nat.sub_zero, List.nil_append]
    have hmin2 : min (t.length + 1 - cap) cap = t.length + 1 - cap := by omega
    rw [hmin2, Nat.sub_self]
    rw [bufLoopGo_btw0 cap (a :: t) t.length ((a :: t).take (t.length + 1 - cap))
      (by rw [List.length_take]; simp only [List.length_cons]; omega)]
    simp [freshWriter]

example : UspWrite_Buffered (freshWriter 3) [1, 2, 3, 4, 5] =
    ([[1, 2, 3]], ⟨3, some ⟨3, [1, 2]⟩⟩) := by decide
example : UspWrite_Buffered (freshWriter 3) [1, 2, 3, 4, 5] =
    ([[1, 2, 3]], ⟨3, some ⟨3, [1, 2, 3, 4, 5].take (5 - 3)⟩⟩) :=
  UspWrite_Buffered_fresh_overflow 3 [1, 2, 3, 4, 5] (by decide) (by decide)

/-- Claim C1, evaluated at the failing input: the copy loop's unadvanced
source pointer breaks byte preservation.  At capacity 2, the write
sequence [[1],[2,3]] (whose payloads concatenate to B = [1,2,3]) hands
the transport the bytes 1,2,2 — the boundary-spanning second call's
second `memcpy` re-reads the input's head byte 2 and drops the tail byte
3 — while the re-partitioning [[1,2,3]] of the same B transmits 1,2,1;
so the transmitted concatenation is neither equal to B nor independent
of the chunk boundaries, refuting the claim on both counts. -/
theorem C1_pointer_bug :
    (writeAll (freshWriter 2) [[1], [2, 3]]).1.flatten = [1, 2, 2] ∧
      (writeAll (freshWriter 2) [[1, 2, 3]]).1.flatten = [1, 2, 1] ∧
      ([[1], [2, 3]] : List (List Nat)).flatten = [1, 2, 3] ∧
      ([[1, 2, 3]] : List (List Nat)).flatten = [1, 2, 3] ∧
      (writeAll (freshWriter 2) [[1], [2, 3]]).1.flatten ≠
        ([[1], [2, 3]] : List (List Nat)).flatten ∧
      (writeAll (freshWriter 2) [[1], [2, 3]]).1.flatten ≠
        (writeAll (freshWriter 2) [[1, 2, 3]]).1.flatten := by decide

/-- Claim C5: a single write whose length exactly equals the
accumulation-buffer capacity triggers exactly one transmission to the
transport (of exactly capacity bytes, the input itself), not an
additional empty transmission, and leaves the buffer empty (cursor at the
start, full remaining capacity) afterward. -/
theorem C5_exact_capacity_write (st : WriterState) (input : List Nat)
    (hpos : 0 < activeSize st) (hemp : retained st = [])
    (hlen : input.length = activeSize st) :
    (UspWrite_Buffered st input).1 = [input] ∧
      (UspWrite_Buffered st input).2 =
        ⟨st.servicePreferedBufferSize, some ⟨activeSize st, []⟩⟩ := by
  cases input with
  | nil => rw [List.length_nil] at hlen; omega
  | cons a t =>
    rw [UspWrite_Buffered_cons, hemp,
      bufLoopGo_exact (activeSize st) (a :: t) hpos hlen]
    exact ⟨rfl, rfl⟩

/-- Witness for C5: a 3-byte write into a fresh capacity-3 writer. -/
theorem C5_witness :
    (UspWrite_Buffered (freshWriter 3) [1, 2, 3]).1 = [[1, 2, 3]] ∧
      (UspWrite_Buffered (freshWriter 3) [1, 2, 3]).2 = ⟨3, some ⟨3, []⟩⟩ := by
  have := C5_exact_capacity_write (freshWriter 3) [1, 2, 3]
    (by decide) rfl (by decide)
  simpa [freshWriter, activeSize] using this

/-- An adapter whose accumulation buffer (capacity 4) holds one byte. -/
def adapterHolding7 : AdapterState := ⟨true, ⟨4, some ⟨4, [7]⟩⟩⟩

/-- Counterexample to claim C6 (a zero-byte write that does not request a
flush is a no-op).  The write interface has no flush flag: in
`UspWrite_Buffered`, `flushBuffer` is simply `bytesToWrite == 0`, so a
zero-byte `ProcessAudio` — the audio path, with no flush requested by the
caller — transmits the buffered byte and releases the buffer instead of
being a no-op. -/
theorem C6_counterexample :
    (ProcessAudio adapterHolding7 []).1 = [[7]] ∧
      (ProcessAudio adapterHolding7 []).1 ≠ [] ∧
      (ProcessAudio adapterHolding7 []).2.writer.buffer ≠
        adapterHolding7.writer.buffer := by
  exact ⟨rfl, by decide, by decide⟩

/-- Claim C6 as amended: every zero-length write through the buffered
writer acts as the flush sentinel — it hands exactly the currently
buffered bytes to the transport (a zero-length transport call when the
buffer is empty, which the zero-length quirk of `UspWrite_Actual`
suppresses) and releases the buffer; there is no separate flush flag
distinguishing zero-byte writes. -/
theorem C6_zero_write_flushes (st : WriterState) :
    (UspWrite_Buffered st []).1 = [retained st] ∧
      (UspWrite_Buffered st []).2 = ⟨st.servicePreferedBufferSize, none⟩ := by
  have h := UspWrite_Flush_eq st
  unfold UspWrite_Flush at h
  rw [h]
  exact ⟨rfl, rfl⟩

/-- Claim C7: the transport reports the failure `USP_WRITE_AUDIO_ERROR`
for a zero-length send (per the source comment, it is what
`::UspWriteAudio` returns on zero bytes); `UspWrite_Actual` treats that
zero-length-send failure as a non-error no-op and returns successfully,
while every transport send failure on a nonzero length propagates (is
thrown) to the caller. -/
theorem C7_zero_length_quirk (hr : UspHr) (byteToWrite : Nat) :
    (byteToWrite = 0 →
      UspWrite_Actual_hr UspHr.uspWriteAudioError byteToWrite = Except.ok ()) ∧
    (byteToWrite ≠ 0 → hrFailed hr = true →
      UspWrite_Actual_hr hr byteToWrite = Except.error hr) := by
  constructor
  · intro h
    subst h
    rfl
  · intro hn hf
    unfold UspWrite_Actual_hr
    simp only [hn, false_and, if_false, hf, if_true]

/-- Witness for C7 at a zero-length failing send and a 3-byte failing
send. -/
theorem C7_witness :
    UspWrite_Actual_hr UspHr.uspWriteAudioError 0 = Except.ok () ∧
      UspWrite_Actual_hr UspHr.otherFailure 3 =
        Except.error UspHr.otherFailure :=
  ⟨(C7_zero_length_quirk UspHr.uspWriteAudioError 0).1 rfl,
    (C7_zero_length_quirk UspHr.otherFailure 3).2 (by decide) rfl⟩

theorem UspWrite_direct_path (st : AdapterState)
    (h : st.fUseBufferedImplementation = false ∨
      st.writer.servicePreferedBufferSize = 0) (input : List Nat) :
    UspWrite st input = ([input], st) := by
  unfold UspWrite
  rcases h with h | h <;> simp [h]

theorem UspWrite_buffered_path (st : AdapterState)
    (hflag : st.fUseBufferedImplementation = true)
    (hcap : st.writer.servicePreferedBufferSize ≠ 0) (input : List Nat) :
    UspWrite st input =
      ((UspWrite_Buffered st.writer input).1,
        ⟨st.fUseBufferedImplementation, (UspWrite_Buffered st.writer input).2⟩) := by
  unfold UspWrite
  simp [hflag, hcap]

set_option maxRecDepth 40000

/-- The 5000-byte payload of the specified scenario, with the two halves
distinguishable: 3200 zero bytes followed by 1800 one bytes (so its
first 1800 bytes differ from its last 1800 bytes). -/
def audio5000 : List Nat := List.replicate 3200 0 ++ List.replicate 1800 1

/-- Claim C2, evaluated at the failing input: after `SetFormat` with the
16000 samples/s, block-align 2 descriptor under the 100 ms target the
capacity is 3200 and a 5000-byte write hands exactly one 3200-byte block
(the first 3200 input bytes) to the transport — but the 1800 bytes left
in the buffer are `audio5000.take 1800`, a duplicate of the input's
first 1800 bytes (the second `memcpy` re-reads the never-advanced source
pointer), not the remaining bytes `audio5000.drop 3200`, and the
subsequent flush transmits that duplicated head instead of the
remainder, refuting the claim's retention and flush parts. -/
theorem C2_pointer_bug :
    computedBufferSize fmt16k = 3200 ∧
      (SetFormat freshAdapter (some fmt16k)).2.writer.servicePreferedBufferSize
          = 3200 ∧
      (ProcessAudio (SetFormat freshAdapter (some fmt16k)).2 audio5000).1
          = [audio5000.take 3200] ∧
      (audio5000.take 3200).length = 3200 ∧
      retained
          (ProcessAudio (SetFormat freshAdapter (some fmt16k)).2 audio5000).2.writer
          = audio5000.take 1800 ∧
      (SetFormat
          (ProcessAudio (SetFormat freshAdapter (some fmt16k)).2 audio5000).2 none).1
          = [audio5000.take 1800] ∧
      audio5000.take 1800 ≠ audio5000.drop 3200 := by
  have hst1 : (SetFormat freshAdapter (some fmt16k)).2 =
      ⟨true, ⟨3200, none⟩⟩ := by decide
  have hlen : audio5000.length = 5000 := by
    rw [audio5000, List.length_append, List.length_replicate, List.length_replicate]
  have hbuf : UspWrite_Buffered (⟨3200, none⟩ : WriterState) audio5000 =
      ([audio5000.take 3200], ⟨3200, some ⟨3200, audio5000.take 1800⟩⟩) := by
    have h := UspWrite_Buffered_fresh_overflow 3200 audio5000
      (by omega) (by omega)
    rw [hlen] at h
    exact h
  have hw : ProcessAudio (⟨true, ⟨3200, none⟩⟩ : AdapterState) audio5000 =
      ([audio5000.take 3200], ⟨true, ⟨3200, some ⟨3200, audio5000.take 1800⟩⟩⟩) := by
    unfold ProcessAudio
    rw [UspWrite_buffered_path ⟨true, ⟨3200, none⟩⟩ rfl (by decide) audio5000]
    rw [show (⟨true, ⟨3200, none⟩⟩ : AdapterState).writer =
      (⟨3200, none⟩ : WriterState) from rfl, hbuf]
  have hfl : SetFormat
      (⟨true, ⟨3200, some ⟨3200, audio5000.take 1800⟩⟩⟩ : AdapterState) none =
      ([audio5000.take 1800], ⟨true, ⟨3200, none⟩⟩) := by
    show (let r := UspWrite_Flush (⟨3200, some ⟨3200, audio5000.take 1800⟩⟩ : WriterState)
      ((r.1, ⟨true, r.2⟩) : List (List Nat) × AdapterState)) = _
    rw [UspWrite_Flush_eq]
    rfl
  rw [hst1, hw, hfl]
  refine ⟨by decide, rfl, rfl, ?_, rfl, rfl, ?_⟩
  · rw [List.length_take]
    omega
  · intro hcontra
    have h0 : (audio5000.take 1800).head? = some 0 := rfl
    have h1 : (audio5000.drop 3200).head? = some 1 := rfl
    rw [hcontra, h1] at h0
    exact Option.noConfusion h0 (fun h => Nat.noConfusion h)

/-- Counterexample to claim C8 (every non-null `SetFormat` feeds the
header through the buffered writer).  On the first `SetFormat` the header
is written by `UspWriteFormat` *before* line 60 updates
`m_servicePreferedBufferSize`, so `UspWrite` dispatches on the old size 0
and sends the header directly: the fresh adapter emits the whole 42-byte
header as one immediate transmission and buffers nothing, whereas the
buffered accumulation path at the newly computed capacity 3200 would have
accumulated all 42 bytes and transmitted nothing. -/
theorem C8_counterexample :
    (SetFormat freshAdapter (some fmt16k)).1 = [UspWriteFormatHeader fmt16k] ∧
      (SetFormat freshAdapter (some fmt16k)).2.writer.buffer = none ∧
      (UspWrite_Buffered (freshWriter 3200) (UspWriteFormatHeader fmt16k)).1 = [] ∧
      (SetFormat freshAdapter (some fmt16k)).1 ≠
        (UspWrite_Buffered (freshWriter 3200) (UspWriteFormatHeader fmt16k)).1 := by
  decide

/-- Claim C8 as amended: `SetFormat` with a non-null descriptor writes
the header through the general `UspWrite` dispatch *before* updating the
buffer size, so the header follows the write path selected by the
previously configured state: when buffering is disabled or the previous
buffer size is zero (in particular on the first `SetFormat`), the header
bytes are sent directly to the transport as a single block, bypassing
accumulation; only when the previous buffer size is nonzero (and
buffering is enabled) do the header bytes follow the same buffered
accumulation path as `ProcessAudio` bytes. -/
theorem C8_header_write_path (st : AdapterState) (f : WAVEFORMATEX) :
    (st.fUseBufferedImplementation = false ∨
        st.writer.servicePreferedBufferSize = 0 →
      (SetFormat st (some f)).1 = [UspWriteFormatHeader f] ∧
        (SetFormat st (some f)).2.writer.buffer = st.writer.buffer) ∧
    (st.fUseBufferedImplementation = true →
        st.writer.servicePreferedBufferSize ≠ 0 →
      (SetFormat st (some f)).1 =
          (UspWrite_Buffered st.writer (UspWriteFormatHeader f)).1 ∧
        (SetFormat st (some f)).2.writer.buffer =
          (UspWrite_Buffered st.writer (UspWriteFormatHeader f)).2.buffer) := by
  have hSF : SetFormat st (some f) =
      ((UspWrite st (UspWriteFormatHeader f)).1,
        ⟨(UspWrite st (UspWriteFormatHeader f)).2.fUseBufferedImplementation,
          ⟨computedBufferSize f,
            (UspWrite st (UspWriteFormatHeader f)).2.writer.buffer⟩⟩) := rfl
  constructor
  · intro h
    rw [hSF, UspWrite_direct_path st h]
    exact ⟨rfl, rfl⟩
  · intro hflag hcap
    rw [hSF, UspWrite_buffered_path st hflag hcap]
    exact ⟨rfl, rfl⟩

/-- Witness for C8 as amended: the fresh adapter takes the direct path;
an adapter whose previous buffer size is 3 takes the buffered path. -/
theorem C8_witness :
    (SetFormat freshAdapter (some fmt16k)).2.writer.buffer =
        freshAdapter.writer.buffer ∧
      (SetFormat (⟨true, ⟨3, none⟩⟩ : AdapterState) (some fmt16k)).1 =
        (UspWrite_Buffered (⟨3, none⟩ : WriterState) (UspWriteFormatHeader fmt16k)).1 :=
  ⟨((C8_header_write_path freshAdapter fmt16k).1 (Or.inr rfl)).2,
    ((C8_header_write_path ⟨true, ⟨3, none⟩⟩ fmt16k).2 rfl (by decide)).1⟩

/-- Claim C3: header synthesis produces exactly the bytes
`'RIFF'`, 4-byte little-endian placeholder 0, `'WAVE'`, `'fmt '`, the
4-byte little-endian byte length of the serialized format descriptor, the
serialized format descriptor bytes, `'data'`, and a 4-byte little-endian
zero placeholder; the output is a pure function of the descriptor (hence
byte-for-byte identical for identical input), and the total number of
bytes written equals the header length `cbHeader` computed before
writing (the `SPX_DBG_ASSERT` at the end of `UspWriteFormat`). -/
theorem C3_header_layout (f : WAVEFORMATEX) (h : f.extraBytes.length = f.cbSize) :
    UspWriteFormatHeader f =
      asciiBytes "RIFF" ++ le32 0 ++ asciiBytes "WAVE" ++ asciiBytes "fmt " ++
        le32 (serializedFormat f).length ++ serializedFormat f ++
        asciiBytes "data" ++ le32 0 ∧
      (serializedFormat f).length = cbFormatChunk f ∧
      (UspWriteFormatHeader f).length = cbHeader f := by
  have hwf : (waveformatexBytes f).length = 18 + f.cbSize := by
    simp [waveformatexBytes, le16, le32, h]
    omega
  have hser : (serializedFormat f).length = cbFormatChunk f := by
    simp only [serializedFormat, List.length_take, hwf, cbFormatChunk]
    omega
  have hR : (asciiBytes "RIFF").take 4 = asciiBytes "RIFF" := rfl
  have hW : (asciiBytes "WAVE").take 4 = asciiBytes "WAVE" := rfl
  have hF : (asciiBytes "fmt ").take 4 = asciiBytes "fmt " := rfl
  have hD : (asciiBytes "data").take 4 = asciiBytes "data" := rfl
  have hstruct : UspWriteFormatHeader f =
      asciiBytes "RIFF" ++ le32 0 ++ asciiBytes "WAVE" ++ asciiBytes "fmt " ++
        le32 (cbFormatChunk f) ++ serializedFormat f ++
        asciiBytes "data" ++ le32 0 := by
    unfold UspWriteFormatHeader FormatBufferWriteChars FormatBufferWriteNumber
      FormatBufferWriteBytes
    rw [hR, hW, hF, hD]
    simp only [serializedFormat, List.nil_append, List.append_assoc]
    try rfl
  refine ⟨by rw [hstruct, hser], hser, ?_⟩
  rw [hstruct]
  have h4 : ∀ s : String, s.length = 4 → (asciiBytes s).length = 4 := by
    intro s hs
    simp [asciiBytes, List.length_map, hs]
  simp only [List.length_append, h4 "RIFF" rfl, h4 "WAVE" rfl, h4 "fmt " rfl,
    h4 "data" rfl, le32, List.length_cons, List.length_nil, hser, cbHeader]
  try omega

/-- Witness for C3 at the concrete 16 kHz PCM descriptor. -/
theorem C3_witness :
    UspWriteFormatHeader fmt16k =
      asciiBytes "RIFF" ++ le32 0 ++ asciiBytes "WAVE" ++ asciiBytes "fmt " ++
        le32 (serializedFormat fmt16k).length ++ serializedFormat fmt16k ++
        asciiBytes "data" ++ le32 0 ∧
      (UspWriteFormatHeader fmt16k).length = cbHeader fmt16k :=
  ⟨(C3_header_layout fmt16k rfl).1, (C3_header_layout fmt16k rfl).2.2⟩

/-- Claim C4: endpoint resolution is a pure function of the property
lookup with first-match-wins precedence — non-empty custom-model id (key
`CUSTOMSPEECH-modelId`) → CRIS regardless of the rest; else endpoint
case-insensitively `CORTANA` → CDSDK; else non-empty endpoint → custom
URL variant (used verbatim by `GetUspCustomEndpoint`); else the default
Bing Speech endpoint; and an entirely empty property set resolves the
recognition mode to interactive. -/
theorem C4_endpoint_precedence (properties : PropertyStore) :
    (properties "CUSTOMSPEECH-modelId" ≠ "" →
      GetUspEndpointType properties = UspEndpointType.cris) ∧
    (properties "CUSTOMSPEECH-modelId" = "" →
      strieq (properties "SPEECH-Endpoint") "CORTANA" = true →
      GetUspEndpointType properties = UspEndpointType.cdsdk) ∧
    (properties "CUSTOMSPEECH-modelId" = "" →
      strieq (properties "SPEECH-Endpoint") "CORTANA" = false →
      properties "SPEECH-Endpoint" ≠ "" →
      GetUspEndpointType properties = UspEndpointType.unknown ∧
        GetUspCustomEndpoint properties = properties "SPEECH-Endpoint") ∧
    (properties "CUSTOMSPEECH-modelId" = "" →
      properties "SPEECH-Endpoint" = "" →
      GetUspEndpointType properties = UspEndpointType.bingSpeech) ∧
    (GetUspEndpointType (fun _ => "") = UspEndpointType.bingSpeech ∧
      GetUspRecoMode (fun _ => "") = UspRecognitionMode.interactive) := by
  refine ⟨?_, ?_, ?_, ?_, by decide, by decide⟩
  · intro h1
    simp [GetUspEndpointType, h1]
  · intro h1 h2
    simp [GetUspEndpointType, h1, h2]
  · intro h1 h2 h3
    exact ⟨by simp [GetUspEndpointType, h1, h2, h3], rfl⟩
  · intro h1 h2
    have hc : strieq "" "CORTANA" = false := by decide
    simp [GetUspEndpointType, h1, h2, hc]

/-- A property store carrying only the lowercase-d custom model id key. -/
def propsCustomModel : PropertyStore := fun key =>
  if key = "CUSTOMSPEECH-modelId" then "m1" else ""

/-- A property store whose endpoint is the reserved keyword in mixed case. -/
def propsCortana : PropertyStore := fun key =>
  if key = "SPEECH-Endpoint" then "Cortana" else ""

/-- Witness for C4 at concrete property stores. -/
theorem C4_witness :
    GetUspEndpointType propsCustomModel = UspEndpointType.cris ∧
      GetUspEndpointType propsCortana = UspEndpointType.cdsdk ∧
      GetUspEndpointType (fun _ => "") = UspEndpointType.bingSpeech ∧
      GetUspRecoMode (fun _ => "") = UspRecognitionMode.interactive :=
  ⟨(C4_endpoint_precedence propsCustomModel).1 (by decide),
    (C4_endpoint_precedence propsCortana).2.1 (by decide) (by decide),
    (C4_endpoint_precedence (fun _ => "")).2.2.2.2.1,
    (C4_endpoint_precedence (fun _ => "")).2.2.2.2.2⟩

/-- Counterexample to claim C9 (after a turn-end message no further
inbound message causes any event to reach the sink).  A speech-start
message delivered after turn-end but before terminate is still
dispatched: the sink receives `speechStarted 5` after the terminal
`streamDone` (the state machine simply allows a new turn). -/
theorem C9_counterexample :
    runSession [SessionItem.msg UspMsg.turnEnd,
        SessionItem.msg (UspMsg.speechStartDetected 5)] =
      [RecognitionEvent.streamDone, RecognitionEvent.speechStarted 5] ∧
      runSession [SessionItem.msg UspMsg.turnEnd,
          SessionItem.msg (UspMsg.speechStartDetected 5)] ≠
        [RecognitionEvent.streamDone] := by
  exact ⟨rfl, by decide⟩

/-- Claim C9 as amended: a turn-end message, after any terminate-free
message history, always produces the terminal `streamDone` event; and
messages arriving after the adapter is terminated are dropped — they are
never dispatched and contribute no event to the sink (and dispatch is a
total function, so it never throws).  Between turn-end and terminate,
further messages are still dispatched. -/
theorem C9_turnend_and_terminate (pre post : List SessionItem)
    (hpre : SessionItem.terminate ∉ pre) :
    runSession (pre ++ [SessionItem.msg UspMsg.turnEnd]) =
        runSession pre ++ [RecognitionEvent.streamDone] ∧
      runSession (pre ++ SessionItem.terminate :: post) = runSession pre := by
  revert hpre
  induction pre with
  | nil =>
    intro _
    exact ⟨rfl, rfl⟩
  | cons i rest ih =>
    intro hpre
    match i with
    | SessionItem.terminate => simp at hpre
    | SessionItem.msg m =>
      have hrest : SessionItem.terminate ∉ rest := by
        intro hm
        exact hpre (List.mem_cons_of_mem _ hm)
      have h := ih hrest
      exact ⟨by simpa [runSession] using h.1, by simpa [runSession] using h.2⟩

/-- Witness for C9 as amended at a concrete terminate-free prefix and a
concrete post-terminate message list. -/
theorem C9_witness :
    runSession [SessionItem.msg (UspMsg.speechStartDetected 1),
        SessionItem.msg UspMsg.turnEnd] =
      runSession [SessionItem.msg (UspMsg.speechStartDetected 1)] ++
        [RecognitionEvent.streamDone] ∧
      runSession [SessionItem.msg (UspMsg.speechStartDetected 1),
          SessionItem.terminate, SessionItem.msg UspMsg.turnEnd] =
        runSession [SessionItem.msg (UspMsg.speechStartDetected 1)] :=
  C9_turnend_and_terminate [SessionItem.msg (UspMsg.speechStartDetected 1)]
    [SessionItem.msg UspMsg.turnEnd] (by decide)

/-- A case-sensitive property store carrying only the capital-M model id
key `CUSTOMSPEECH-ModelId`. -/
def propsModelIdCapital : PropertyStore := fun key =>
  if key = "CUSTOMSPEECH-ModelId" then "m1" else ""

/-- Claim C10, evaluated at the failing input: under a case-sensitive
lookup holding only `CUSTOMSPEECH-ModelId = "m1"`, the model id that
`UspInitialize` applies to the connection is the non-empty `"m1"` (read
from `CUSTOMSPEECH-ModelId`), yet `GetUspEndpointType` (which reads
`CUSTOMSPEECH-modelId`, lowercase `m`) sees an empty value and selects
the default Bing Speech endpoint rather than CRIS — so the claimed
equivalence fails on this store. -/
theorem C10_model_key_mismatch :
    GetUspModelId propsModelIdCapital = "m1" ∧
      GetUspModelId propsModelIdCapital ≠ "" ∧
      propsModelIdCapital "CUSTOMSPEECH-modelId" = "" ∧
      GetUspEndpointType propsModelIdCapital = UspEndpointType.bingSpeech := by
  exact ⟨rfl, by decide, rfl, by decide⟩
